import Mathlib

/-!
Shallow embedding of `src/main.rs` of the `ffmpeg_normalize` tool
(an ffmpeg loudnorm two-pass helper) and verification of the frozen
claims about it.

Rust strings are modelled as Lean `String`; byte indices into UTF-8
text are modelled by positions in the underlying `List Char` (the only
characters the program searches for, such as the opening brace, are
ASCII, so the two views agree).  The external collaborators (clap
argument matching, serde_json parsing, the ffmpeg subprocess) are
modelled explicitly where the claims need them, as documented on each
definition.
-/

/-- Mirrors `struct Loudness` (src/main.rs lines 7-14): the five
string-typed fields deserialized from ffmpeg's JSON self-report. -/
structure Loudness where
  input_i : String
  input_tp : String
  input_lra : String
  input_thresh : String
  target_offset : String
deriving DecidableEq, Repr

/-- Mirrors `struct CliConfig` (src/main.rs lines 16-23).  The three
numeric targets are stored as raw strings, exactly as in the source. -/
structure CliConfig where
  input_path : String
  integrated_loudness : String
  loudness_range : String
  true_peak : String
  down_mix : Bool
  resample : Bool
deriving DecidableEq, Repr

/-- Mirrors `enum CliError` (src/main.rs lines 132-137).  Note the
source has exactly these three constructors: there is no
`InvalidArgument`, `NoJsonFound` or `MalformedJson` variant. -/
inductive CliError where
  | MissingInput
  | MissingArgument (arg : String)
  | ProcessFailed
deriving DecidableEq, Repr

/-- Mirrors the `Display` impl for `CliError` (src/main.rs lines 139-147). -/
def CliError.display : CliError → String
  | .MissingInput => "Input path is required."
  | .MissingArgument arg => "Missing argument: " ++ arg
  | .ProcessFailed => "FFmpeg process failed."

/-- The fixed downmix chain literal of `FilterSettings::construct`
(src/main.rs lines 99 and 119). -/
def downmix_chain : String :=
  "aformat=sample_fmts=s16:sample_rates=48000:channel_layouts=stereo,"

/-- The fixed resample chain literal of `FilterSettings::construct`
(src/main.rs line 108). -/
def resample_chain : String :=
  ",aresample=osr=48000,aresample=resampler=soxr:precision=28"

/-- Mirrors `FilterSettings::construct` (src/main.rs lines 92-129).
The `format!` templates are transcribed literally; in particular the
measurement-mode template uses the lowercase key `tp=` while the
correction-mode template uses the uppercase key `TP=`. -/
def FilterSettings.construct (filter_config : CliConfig)
    (loudness : Option Loudness) : String :=
  match loudness with
  | some l =>
      (if filter_config.down_mix then downmix_chain else "")
        ++ "loudnorm=linear=true:I=" ++ filter_config.integrated_loudness
        ++ ":LRA=" ++ filter_config.loudness_range
        ++ ":TP=" ++ filter_config.true_peak
        ++ ":measured_I=" ++ l.input_i
        ++ ":measured_TP=" ++ l.input_tp
        ++ ":measured_LRA=" ++ l.input_lra
        ++ ":measured_thresh=" ++ l.input_thresh
        ++ ":offset=" ++ l.target_offset
        ++ (if filter_config.resample then resample_chain else "")
  | none =>
      (if filter_config.down_mix then downmix_chain else "")
        ++ "loudnorm=I=" ++ filter_config.integrated_loudness
        ++ ":LRA=" ++ filter_config.loudness_range
        ++ ":tp=" ++ filter_config.true_peak
        ++ ":print_format=json"

/-- Model of clap's `ArgMatches` restricted to the arguments this CLI
defines: `get_one::<String>` for the four string arguments is an
`Option String`, `get_flag` for the two flags is a `Bool`. -/
structure ArgMatches where
  input : Option String
  integrated_loudness : Option String
  loudness_range : Option String
  true_peak : Option String
  down_mix : Bool
  resample : Bool
deriving DecidableEq, Repr

/-- Mirrors `CliConfig::from_matches` (src/main.rs lines 26-47): the
fields of the struct literal are evaluated in source order, each `?`
propagating the first missing value; the target strings are cloned
verbatim with no numeric parsing or validation. -/
def CliConfig.from_matches (ms : ArgMatches) : Except CliError CliConfig :=
  match ms.input with
  | none => .error .MissingInput
  | some inp =>
    match ms.integrated_loudness with
    | none => .error (.MissingArgument "integrated loudness")
    | some il =>
      match ms.loudness_range with
      | none => .error (.MissingArgument "loudness range")
      | some lr =>
        match ms.true_peak with
        | none => .error (.MissingArgument "true peak")
        | some tpk =>
          .ok ⟨inp, il, lr, tpk, ms.down_mix, ms.resample⟩

/-- The raw command line as the user provided it: `none` for an
omitted option.  Used to model clap's matching for the CLI built by
`setup_cli` (src/main.rs lines 151-176). -/
structure RawArgs where
  input : Option String
  integrated_loudness : Option String
  loudness_range : Option String
  true_peak : Option String
  down_mix : Bool
  resample : Bool
deriving DecidableEq, Repr

/-- Model of clap's matching for the command built by `setup_cli`
(src/main.rs lines 151-192): `setup_arg` installs `default_value`
`"-24.0"`, `"7.0"`, `"-2.0"` respectively, and clap's documented
`default_value` semantics make `get_one` return the default whenever
the user omits the option, so those three lookups always yield `some`. -/
def setup_cli_matches (raw : RawArgs) : ArgMatches :=
  { input := raw.input
    integrated_loudness := some (raw.integrated_loudness.getD "-24.0")
    loudness_range := some (raw.loudness_range.getD "7.0")
    true_peak := some (raw.true_peak.getD "-2.0")
    down_mix := raw.down_mix
    resample := raw.resample }

/-- Result of waiting on the spawned ffmpeg process: `success` is
`status.success()` (exit code zero) and `stderr_text` is the captured
standard-error stream decoded as text. -/
structure ProcOutput where
  success : Bool
  stderr_text : String
deriving DecidableEq, Repr

/-- Mirrors `LoudnessAnalyzer::analyze_loudness` (src/main.rs lines
53-79).  The behaviour of the external ffmpeg process is supplied as
the `spawned` argument: `none` models a spawn/wait failure, `some o`
models a process that ran to completion with outcome `o`.  The input
path and filter string only parametrise the subprocess and do not
influence the control flow being modelled. -/
def LoudnessAnalyzer.analyze_loudness (_input_path _filter_settings : String)
    (spawned : Option ProcOutput) : Except CliError String :=
  match spawned with
  | none => .error .ProcessFailed
  | some o => if o.success then .ok o.stderr_text else .error .ProcessFailed

/-- Suffix of the character list starting at the LAST occurrence of
the opening brace, or `[]` when there is none.  This is exactly
`output.rfind(opening brace).map(|start| output[start..]).unwrap_or_default()`:
the slice runs from the last opening brace to the END of the text. -/
def extractJsonList : List Char → List Char
  | [] => []
  | c :: cs =>
    let r := extractJsonList cs
    if r = [] then (if c = '\x7b' then c :: cs else []) else r

/-- Mirrors `LoudnessAnalyzer::extract_json` (src/main.rs lines 81-86). -/
def LoudnessAnalyzer.extract_json (output : String) : String :=
  ⟨extractJsonList output.data⟩

/-- JSON insignificant whitespace. -/
def jsonWs (c : Char) : Bool :=
  c = ' ' || c = '\t' || c = '\n' || c = '\r'

/-- Drop leading JSON whitespace. -/
def skipWs : List Char → List Char
  | [] => []
  | c :: cs => if jsonWs c then skipWs cs else c :: cs

/-- Scan the body of a JSON string literal up to the closing quote.
Escape sequences are outside the modelled fragment (none of the
program's JSON inputs of interest contain a backslash), so a backslash
makes the model parser fail. -/
def scanStr : List Char → Option (List Char × List Char)
  | [] => none
  | c :: cs =>
    if c = '\"' then some ([], cs)
    else if c = '\\' then none
    else (scanStr cs).map fun p => (c :: p.1, p.2)

/-- Parse a JSON string literal (after optional leading whitespace). -/
def parseStr (l : List Char) : Option (List Char × List Char) :=
  match skipWs l with
  | c :: cs => if c = '\"' then scanStr cs else none
  | [] => none

/-- Parse one `"key" : "value"` member. -/
def parseMember (l : List Char) : Option ((List Char × List Char) × List Char) :=
  match parseStr l with
  | none => none
  | some (k, r1) =>
    match skipWs r1 with
    | c :: r2 =>
      if c = ':' then
        match parseStr r2 with
        | none => none
        | some (v, r3) => some ((k, v), r3)
      else none
    | [] => none

/-- Parse a comma-separated member list; returns the members and the
rest of the input with leading whitespace consumed.  The fuel bounds
the recursion and is instantiated with the input length plus one,
which is ample since each member consumes at least one character. -/
def parseMembers : Nat → List Char → Option (List (List Char × List Char) × List Char)
  | 0, _ => none
  | fuel + 1, l =>
    match parseMember l with
    | none => none
    | some (kv, r) =>
      match skipWs r with
      | c :: r2 =>
        if c = ',' then
          match parseMembers fuel r2 with
          | none => none
          | some (kvs, r3) => some (kv :: kvs, r3)
        else some ([kv], c :: r2)
      | [] => some ([kv], [])

/-- Parse one flat JSON object with string-literal keys and values;
returns the key/value pairs and the unconsumed rest of the input. -/
def parseObj (l : List Char) : Option (List (List Char × List Char) × List Char) :=
  match skipWs l with
  | [] => none
  | c :: r =>
    if c = '\x7b' then
      match skipWs r with
      | [] => none
      | c2 :: r2 =>
        if c2 = '\x7d' then some ([], r2)
        else
          match parseMembers (r.length + 1) (c2 :: r2) with
          | none => none
          | some (kvs, r3) =>
            match r3 with
            | c3 :: r4 => if c3 = '\x7d' then some (kvs, r4) else none
            | [] => none
    else none

/-- Look a required field up among the parsed members.  Derived serde
deserializers reject a missing required field and a duplicated field,
so the lookup succeeds exactly when the key occurs once. -/
def getField (kvs : List (List Char × List Char)) (k : String) : Option String :=
  match kvs.filter fun kv => kv.1 == k.data with
  | [kv] => some ⟨kv.2⟩
  | _ => none

/-- Model of `serde_json::from_str::<Loudness>` on the modelled
fragment: flat JSON objects whose keys and values are string literals
without escape sequences.  Unknown fields are ignored (serde's
default), each of the five required fields must occur exactly once,
and anything but whitespace after the closing brace is rejected
(serde's trailing-characters error). -/
def serde_from_str_loudness (s : String) : Option Loudness :=
  match parseObj s.data with
  | none => none
  | some (kvs, rest) =>
    if rest.all jsonWs then
      match getField kvs "input_i", getField kvs "input_tp",
            getField kvs "input_lra", getField kvs "input_thresh",
            getField kvs "target_offset" with
      | some a, some b, some c, some d, some e => some ⟨a, b, c, d, e⟩
      | _, _, _, _, _ => none
    else none

/-- Observable outcome of one run of the program: the process exit
status, the lines printed to standard output and the lines printed to
standard error by `eprintln!`.  A Rust panic (from `.expect`/`.unwrap`)
terminates the process with exit status 101 and prints nothing to
standard output. -/
structure MainOutcome where
  exitCode : Nat
  stdoutLines : List String
  stderrLines : List String
deriving DecidableEq, Repr

/-- Mirrors `fn main` (src/main.rs lines 194-207).  The environment's
behaviour is supplied as arguments: `raw` is the command line (already
past clap, which models `setup_cli`), and `spawned` is the ffmpeg
subprocess outcome.  Note the `Err` arm of the `match` only calls
`eprintln!` and falls off the end of `main`, so the process then
terminates normally with exit status 0. -/
def main_model (raw : RawArgs) (spawned : Option ProcOutput) : MainOutcome :=
  match CliConfig.from_matches (setup_cli_matches raw) with
  | .error _ => ⟨101, [], []⟩
  | .ok config =>
    let filter_settings := FilterSettings.construct config none
    match LoudnessAnalyzer.analyze_loudness config.input_path filter_settings spawned with
    | .ok output =>
      match serde_from_str_loudness (LoudnessAnalyzer.extract_json output) with
      | some loudness => ⟨0, [FilterSettings.construct config (some loudness)], []⟩
      | none => ⟨101, [], []⟩
    | .error e => ⟨0, [], [CliError.display e]⟩

/-- A convenient fully-supplied command line used in concrete runs. -/
def rawDefault : RawArgs :=
  ⟨some "in.wav", some "-23.0", some "7.0", some "-2.0", false, false⟩

/-- Numeric text: every character is a digit, a minus sign or a
decimal point.  This is the character set of any string that parses as
a plain floating-point number, the shape the spec calls a valid
numeric target or measurement field. -/
def NumStr (s : String) : Prop :=
  ∀ c ∈ s.data, c ∈ ("0123456789-." : String).data

instance (s : String) : Decidable (NumStr s) := by
  unfold NumStr; infer_instance

/-- String `t` contains `s` as a contiguous substring. -/
def containsS (t s : String) : Prop := s.data <:+: t.data

instance (t s : String) : Decidable (containsS t s) := by
  unfold containsS; infer_instance

/-- String `t` starts with `s`. -/
def startsS (t s : String) : Prop := s.data <+: t.data

instance (t s : String) : Decidable (startsS t s) := by
  unfold startsS; infer_instance

/-- String `t` ends with `s`. -/
def endsS (t s : String) : Prop := s.data <:+ t.data

instance (t s : String) : Decidable (endsS t s) := by
  unfold endsS; infer_instance

/-- Written from the spec's words for claim C2, to be compared with
`FilterSettings.construct`: the spec's measurement-mode template
`[downmix-prefix]loudnorm=I=<I>:LRA=<LRA>:TP=<TP>:print_format=json`
with its uppercase `TP=` key. -/
def spec_measurement_filter (c : CliConfig) : String :=
  (if c.down_mix then downmix_chain else "")
    ++ "loudnorm=I=" ++ c.integrated_loudness
    ++ ":LRA=" ++ c.loudness_range
    ++ ":TP=" ++ c.true_peak
    ++ ":print_format=json"

/-- The canonical five-field ffmpeg loudnorm JSON report used by the
spec's own example. -/
def canonicalJson : String :=
  "\x7b\"input_i\":\"-23.5\",\"input_tp\":\"-1.0\",\"input_lra\":\"5.0\",\"input_thresh\":\"-34.0\",\"target_offset\":\"0.5\"\x7d"

/-- Diagnostic text whose JSON object is followed by one non-whitespace
character. -/
def noisyJsonWithTail : String := "noise " ++ canonicalJson ++ "x"

/-! ### Helper lemmas about the extractor -/

/-- Text without an opening brace extracts to the empty list. -/
theorem extractJsonList_eq_nil {l : List Char} (h : '\x7b' ∉ l) :
    extractJsonList l = [] := by
  induction l with
  | nil => rfl
  | cons c cs ih =>
    have hc : c ≠ '\x7b' := fun hc => h (hc ▸ List.mem_cons_self c cs)
    have hcs : '\x7b' ∉ cs := fun hm => h (List.mem_cons_of_mem c hm)
    simp [extractJsonList, ih hcs, hc]

/-- The extractor returns the suffix of the text that starts at the
last opening brace and runs to the end of the text. -/
theorem extractJsonList_last_brace {l : List Char} (h : '\x7b' ∈ l) :
    ∃ pre tl, l = pre ++ extractJsonList l ∧
      extractJsonList l = '\x7b' :: tl ∧ '\x7b' ∉ tl := by
  induction l with
  | nil => cases h
  | cons c cs ih =>
    by_cases hcs : '\x7b' ∈ cs
    · obtain ⟨pre, tl, heq, hE, hnt⟩ := ih hcs
      have hne : extractJsonList cs ≠ [] := by rw [hE]; exact List.cons_ne_nil _ _
      have hstep : extractJsonList (c :: cs) = extractJsonList cs := by
        simp [extractJsonList, hne]
      exact ⟨c :: pre, tl, by rw [hstep, List.cons_append, ← heq], by rw [hstep, hE], hnt⟩
    · have hc : c = '\x7b' := by
        rcases List.mem_cons.1 h with h1 | h2
        · exact h1.symm
        · exact absurd h2 hcs
      have hE0 : extractJsonList cs = [] := extractJsonList_eq_nil hcs
      refine ⟨[], cs, ?_, ?_, hcs⟩
      · simp [extractJsonList, hE0, hc]
      · simp [extractJsonList, hE0, hc]

/-! ### Claim C1 -/

/-- Claim C1 (code bug evaluation): the claim states that the process
exits with non-zero status on any subprocess error.  In the code, the
`Err` arm of `main`'s `match` only prints the error with `eprintln!`
and then `main` returns normally, so the process exits with status 0
even though the ffmpeg subprocess failed; no filter string is printed.
This evaluates both failure shapes: a process that ran and exited
non-zero, and a process that could not be spawned at all. -/
theorem C1_subprocess_error_exits_zero :
    main_model rawDefault (some ⟨false, "ffmpeg error log"⟩) =
      ⟨0, [], ["FFmpeg process failed."]⟩ ∧
    main_model rawDefault none = ⟨0, [], ["FFmpeg process failed."]⟩ := by
  exact ⟨rfl, rfl⟩

/-! ### Claim C5 -/

/-- Claim C5: for the configuration I=-23.0, LRA=7.0, TP=-2.0,
downmix=false, resample=false and the measurement -23.5, -1.0, 5.0,
-34.0, 0.5, the correction-mode filter string is exactly the spec's
string, with the colon-separated key=value fields in exactly this
order. -/
theorem C5_exact_correction_string :
    FilterSettings.construct ⟨"in.wav", "-23.0", "7.0", "-2.0", false, false⟩
      (some ⟨"-23.5", "-1.0", "5.0", "-34.0", "0.5"⟩) =
    "loudnorm=linear=true:I=-23.0:LRA=7.0:TP=-2.0:measured_I=-23.5:measured_TP=-1.0:measured_LRA=5.0:measured_thresh=-34.0:offset=0.5" := by
  decide

/-! ### Claim C6 -/

/-- Claim C6 (counterexample): the claim states that a numeric target
flag whose value does not parse as a floating-point number makes
resolution fail with `InvalidArgument`.  In the code resolution never
parses the targets: with integrated loudness `"abc"` it succeeds and
stores the unparsed text verbatim (and the error enum has no
`InvalidArgument` constructor at all). -/
theorem C6_counterexample :
    CliConfig.from_matches ⟨some "f.wav", some "abc", some "7.0", some "-2.0", false, false⟩ =
      .ok ⟨"f.wav", "abc", "7.0", "-2.0", false, false⟩ ∧
    FilterSettings.construct ⟨"f.wav", "abc", "7.0", "-2.0", false, false⟩ none =
      "loudnorm=I=abc:LRA=7.0:tp=-2.0:print_format=json" := by
  exact ⟨rfl, by decide⟩

/-- Claim C6 (amended): configuration resolution performs no numeric
parsing at all: when all four lookups are present it succeeds and
stores the three target strings verbatim, whatever they contain; and
every resolution outcome is either success, `MissingInput`, or
`MissingArgument` — there is no `InvalidArgument` error. -/
theorem C6_amended :
    (∀ (inp il lr tpk : String) (dm rs : Bool),
      CliConfig.from_matches ⟨some inp, some il, some lr, some tpk, dm, rs⟩ =
        .ok ⟨inp, il, lr, tpk, dm, rs⟩) ∧
    (∀ ms : ArgMatches,
      (∃ cfg, CliConfig.from_matches ms = .ok cfg) ∨
      CliConfig.from_matches ms = .error .MissingInput ∨
      (∃ s, CliConfig.from_matches ms = .error (.MissingArgument s))) := by
  constructor
  · intro inp il lr tpk dm rs
    rfl
  · intro ms
    rcases ms with ⟨i, il, lr, tpk, dm, rs⟩
    cases i <;> cases il <;> cases lr <;> cases tpk <;>
      simp [CliConfig.from_matches]

/-! ### Claim C10 -/

/-- Claim C10: because the three numeric target flags carry clap
default values, `setup_cli`'s matches always hold all three targets,
so resolution succeeds whenever the positional input is present and
the `MissingArgument` branches of `CliConfig::from_matches` are
unreachable: the only possible resolution failure is `MissingInput`. -/
theorem C10_defaults_make_targets_present : ∀ raw : RawArgs,
    (∀ inp, raw.input = some inp →
      CliConfig.from_matches (setup_cli_matches raw) =
        .ok ⟨inp, raw.integrated_loudness.getD "-24.0", raw.loudness_range.getD "7.0",
             raw.true_peak.getD "-2.0", raw.down_mix, raw.resample⟩) ∧
    (∀ e, CliConfig.from_matches (setup_cli_matches raw) = .error e → e = .MissingInput) := by
  intro raw
  constructor
  · intro inp h
    simp [CliConfig.from_matches, setup_cli_matches, h]
  · intro e h
    rcases hr : raw.input with _ | v <;>
      simp [CliConfig.from_matches, setup_cli_matches, hr] at h
    exact h.symm

/-- Claim C10 (witness): the theorem applied at a concrete command
line with the input present, and at one without it. -/
theorem C10_defaults_make_targets_present_witness :
    CliConfig.from_matches (setup_cli_matches rawDefault) =
      .ok ⟨"in.wav", "-23.0", "7.0", "-2.0", false, false⟩ ∧
    CliError.MissingInput = CliError.MissingInput := by
  refine ⟨(C10_defaults_make_targets_present rawDefault).1 "in.wav" rfl, ?_⟩
  exact (C10_defaults_make_targets_present ⟨none, none, none, none, false, false⟩).2
    .MissingInput rfl

/-! ### Claim C3 -/

/-- Claim C3 (counterexample): the claim states that on text with no
opening brace extraction fails with a `NoJsonFound` error and the
program does not panic.  In the code `extract_json` is infallible and
returns the empty string (`unwrap_or_default`), the subsequent
`serde_json::from_str(...).unwrap()` then panics, and the process
aborts with the panic exit status 101 — there is no `NoJsonFound` (or
`MalformedJson`) error value anywhere. -/
theorem C3_counterexample :
    LoudnessAnalyzer.extract_json "no json here" = "" ∧
    main_model rawDefault (some ⟨true, "no json here"⟩) = ⟨101, [], []⟩ := by
  exact ⟨rfl, rfl⟩

/-- Claim C3 (amended): on diagnostic text without an opening brace,
`extract_json` returns the empty string rather than an error; whenever
the extracted substring fails to parse into the five-field record
(the empty string always fails), `main` panics on the `unwrap`, so the
process terminates abnormally (exit status 101) and no filter string
is printed — the failure surfaces as a panic, not as `NoJsonFound` or
`MalformedJson` error values, which do not exist in the code. -/
theorem C3_amended : ∀ (output : String) (raw : RawArgs) (inp : String),
    raw.input = some inp →
    ('\x7b' ∉ output.data → LoudnessAnalyzer.extract_json output = "") ∧
    (serde_from_str_loudness (LoudnessAnalyzer.extract_json output) = none →
      main_model raw (some ⟨true, output⟩) = ⟨101, [], []⟩) := by
  intro output raw inp hinp
  constructor
  · intro h
    show (⟨extractJsonList output.data⟩ : String) = ""
    rw [extractJsonList_eq_nil h]
  · intro hparse
    simp [main_model, CliConfig.from_matches, setup_cli_matches, hinp,
      LoudnessAnalyzer.analyze_loudness, hparse]

/-- Claim C3 (witness): the amended theorem applied at the concrete
brace-free text `"no braces"` with a fully supplied command line. -/
theorem C3_amended_witness :
    LoudnessAnalyzer.extract_json "no braces" = "" ∧
    main_model rawDefault (some ⟨true, "no braces"⟩) = ⟨101, [], []⟩ :=
  ⟨(C3_amended "no braces" rawDefault "in.wav" rfl).1 (by decide),
   (C3_amended "no braces" rawDefault "in.wav" rfl).2 (by decide)⟩

/-! ### Claim C4 -/

set_option maxRecDepth 4000 in
/-- Claim C4 (counterexample): the claim states the extractor slices
from the last opening brace to the MATCHING closing brace, excluding
later characters, and parses that.  In the code the slice runs to the
end of the text: on `"noise " ++ canonicalJson ++ "x"` the extracted
substring still carries the trailing `"x"`, and parsing it fails
(serde's trailing-characters error) where the claim would have it
succeed on the brace-delimited object. -/
theorem C4_counterexample :
    LoudnessAnalyzer.extract_json noisyJsonWithTail = canonicalJson ++ "x" ∧
    serde_from_str_loudness (LoudnessAnalyzer.extract_json noisyJsonWithTail) = none := by
  exact ⟨by decide, by decide⟩

/-- Claim C4 (amended): for text containing an opening brace, the
extractor returns the suffix that starts at the LAST opening brace and
runs to the END of the text — characters after the closing brace are
included in what is parsed (so the parse succeeds only when they are
whitespace); on the exact five-field object the parse yields the
record with those five string values. -/
theorem C4_amended : ∀ output : String, '\x7b' ∈ output.data →
    (∃ pre tl, output.data = pre ++ (LoudnessAnalyzer.extract_json output).data ∧
      (LoudnessAnalyzer.extract_json output).data = '\x7b' :: tl ∧ '\x7b' ∉ tl) ∧
    serde_from_str_loudness canonicalJson =
      some ⟨"-23.5", "-1.0", "5.0", "-34.0", "0.5"⟩ := by
  intro output h
  exact ⟨extractJsonList_last_brace h, by decide⟩

/-- Claim C4 (witness): the amended theorem applied at the concrete
text `"log \x7bx"`. -/
theorem C4_amended_witness :
    (∃ pre tl, ("log \x7bx" : String).data =
        pre ++ (LoudnessAnalyzer.extract_json "log \x7bx").data ∧
      (LoudnessAnalyzer.extract_json "log \x7bx").data = '\x7b' :: tl ∧ '\x7b' ∉ tl) ∧
    serde_from_str_loudness canonicalJson =
      some ⟨"-23.5", "-1.0", "5.0", "-34.0", "0.5"⟩ :=
  C4_amended "log \x7bx" (by decide)

/-! ### Generic string-structure lemmas -/

/-- The empty string has no characters. -/
theorem empty_data : ("" : String).data = [] := rfl

/-- A character of a numeric string is never a character outside the
numeric alphabet. -/
theorem numStr_not_mem {s : String} (h : NumStr s) {c : Char}
    (hc : c ∉ ("0123456789-." : String).data) : c ∉ s.data :=
  fun hm => hc (h c hm)

/-- A list shares its head with any nonempty list prefixing it. -/
theorem head_eq_of_isPre {p t : List Char} (h : p <+: t) (hp : p ≠ []) :
    t.head? = p.head? := by
  obtain ⟨u, rfl⟩ := h
  cases p with
  | nil => exact absurd rfl hp
  | cons a l => rfl

/-- Exhibit an infix occurrence from an explicit three-way split. -/
theorem infix_of_split {mid t : List Char} (pre post : List Char)
    (h : t = pre ++ (mid ++ post)) : mid <:+: t :=
  ⟨pre, post, by rw [h, List.append_assoc]⟩

/-- Exhibit an infix occurrence at the very end of the list. -/
theorem infix_of_split_end {mid t : List Char} (pre : List Char)
    (h : t = pre ++ mid) : mid <:+: t :=
  ⟨pre, [], by rw [h]; simp⟩

/-- Exhibit a suffix from an explicit split. -/
theorem suffix_of_split {suf t : List Char} (pre : List Char)
    (h : t = pre ++ suf) : suf <:+ t :=
  ⟨pre, h.symm⟩

/-- Extend a suffix on the left. -/
theorem suffix_extend {l r : List Char} (x : List Char) (h : l <:+ r) :
    l <:+ x ++ r :=
  h.trans (List.suffix_append x r)

/-- An infix occurrence within an append either lies inside the left
part, or ends with a nonempty block occurring inside the right part. -/
theorem infix_append_split {s a b : List Char} (h : s <:+: a ++ b) :
    s <:+: a ∨ ∃ s1 s2, s = s1 ++ s2 ∧ s2 ≠ [] ∧ s2 <:+: b := by
  rcases eq_or_ne s [] with rfl | hs
  · exact Or.inl List.nil_infix
  obtain ⟨u, v, huv⟩ := h
  rw [List.append_assoc] at huv
  rcases List.append_eq_append_iff.1 huv with ⟨w, hw1, hw2⟩ | ⟨w, hw1, hw2⟩
  · rcases List.append_eq_append_iff.1 hw2 with ⟨x, hx1, hx2⟩ | ⟨x, hx1, hx2⟩
    · left
      exact ⟨u, x, by rw [hw1, hx1]; simp [List.append_assoc]⟩
    · rcases eq_or_ne x [] with rfl | hx
      · left
        refine ⟨u, [], ?_⟩
        rw [hw1, hx1]
        simp
      · right
        exact ⟨w, x, hx1, hx, ⟨[], v, by rw [hx2]; simp⟩⟩
  · right
    exact ⟨[], s, by simp, hs, ⟨w, v, by rw [hw2]; simp [List.append_assoc]⟩⟩

/-- A nonempty suffix of a list contains the list's last element. -/
theorem getLast_mem_of_suffix {x : Char} {s2 s : List Char} (h : s2 <:+ s)
    (hne : s2 ≠ []) (hx : s.getLast? = some x) : x ∈ s2 := by
  obtain ⟨t, rfl⟩ := h
  rw [List.getLast?_append_of_ne_nil t hne, List.getLast?_eq_getLast s2 hne] at hx
  have hmem := List.getLast_mem hne
  rwa [Option.some_inj.1 hx] at hmem

/-- A character of the downmix if-atom is a character of the downmix
chain. -/
theorem mem_ite_chain {b : Bool} {ch : Char}
    (h : ch ∈ ((if b then downmix_chain else "") : String).data) :
    ch ∈ downmix_chain.data := by
  cases b
  · exact absurd h (by simp [empty_data])
  · simpa using h

/-- A character of the resample if-atom is a character of the resample
chain. -/
theorem mem_ite_res {b : Bool} {ch : Char}
    (h : ch ∈ ((if b then resample_chain else "") : String).data) :
    ch ∈ resample_chain.data := by
  cases b
  · exact absurd h (by simp [empty_data])
  · simpa using h

/-! ### Shape of the two filter strings at the character level -/

/-- The correction-mode output, fully right-associated over its
seventeen blocks. -/
theorem construct_some_data (c : CliConfig) (l : Loudness) :
    (FilterSettings.construct c (some l)).data =
      ((if c.down_mix then downmix_chain else "") : String).data ++
      (("loudnorm=linear=true:I=" : String).data ++ (c.integrated_loudness.data ++
      ((":LRA=" : String).data ++ (c.loudness_range.data ++
      ((":TP=" : String).data ++ (c.true_peak.data ++
      ((":measured_I=" : String).data ++ (l.input_i.data ++
      ((":measured_TP=" : String).data ++ (l.input_tp.data ++
      ((":measured_LRA=" : String).data ++ (l.input_lra.data ++
      ((":measured_thresh=" : String).data ++ (l.input_thresh.data ++
      ((":offset=" : String).data ++ (l.target_offset.data ++
      ((if c.resample then resample_chain else "") : String).data)))))))))))))))) := by
  simp [FilterSettings.construct, String.data_append, List.append_assoc]

/-- The measurement-mode output, fully right-associated over its eight
blocks. -/
theorem construct_none_data (c : CliConfig) :
    (FilterSettings.construct c none).data =
      ((if c.down_mix then downmix_chain else "") : String).data ++
      (("loudnorm=I=" : String).data ++ (c.integrated_loudness.data ++
      ((":LRA=" : String).data ++ (c.loudness_range.data ++
      ((":tp=" : String).data ++ (c.true_peak.data ++
      (":print_format=json" : String).data)))))) := by
  simp [FilterSettings.construct, String.data_append, List.append_assoc]

/-- No character avoiding every block of the measurement-mode string
occurs in it. -/
theorem not_mem_construct_none {c : CliConfig} {ch : Char}
    (hA : ch ∉ downmix_chain.data)
    (h1 : ch ∉ ("loudnorm=I=" : String).data)
    (hIl : ch ∉ c.integrated_loudness.data)
    (h2 : ch ∉ (":LRA=" : String).data)
    (hLr : ch ∉ c.loudness_range.data)
    (h3 : ch ∉ (":tp=" : String).data)
    (hTp : ch ∉ c.true_peak.data)
    (h4 : ch ∉ (":print_format=json" : String).data) :
    ch ∉ (FilterSettings.construct c none).data := by
  rw [construct_none_data]
  intro hmem
  simp only [List.mem_append] at hmem
  rcases hmem with h | h | h | h | h | h | h | h
  · exact hA (mem_ite_chain h)
  · exact h1 h
  · exact hIl h
  · exact h2 h
  · exact hLr h
  · exact h3 h
  · exact hTp h
  · exact h4 h

/-- No character avoiding every block of the correction-mode string
occurs in it. -/
theorem not_mem_construct_some {c : CliConfig} {l : Loudness} {ch : Char}
    (hA : ch ∉ ((if c.down_mix then downmix_chain else "") : String).data)
    (h1 : ch ∉ ("loudnorm=linear=true:I=" : String).data)
    (hIl : ch ∉ c.integrated_loudness.data)
    (h2 : ch ∉ (":LRA=" : String).data)
    (hLr : ch ∉ c.loudness_range.data)
    (h3 : ch ∉ (":TP=" : String).data)
    (hTp : ch ∉ c.true_peak.data)
    (h4 : ch ∉ (":measured_I=" : String).data)
    (hIi : ch ∉ l.input_i.data)
    (h5 : ch ∉ (":measured_TP=" : String).data)
    (hItp : ch ∉ l.input_tp.data)
    (h6 : ch ∉ (":measured_LRA=" : String).data)
    (hIlra : ch ∉ l.input_lra.data)
    (h7 : ch ∉ (":measured_thresh=" : String).data)
    (hIth : ch ∉ l.input_thresh.data)
    (h8 : ch ∉ (":offset=" : String).data)
    (hOff : ch ∉ l.target_offset.data)
    (hR : ch ∉ ((if c.resample then resample_chain else "") : String).data) :
    ch ∉ (FilterSettings.construct c (some l)).data := by
  rw [construct_some_data]
  intro hmem
  simp only [List.mem_append] at hmem
  rcases hmem with h | h | h | h | h | h | h | h | h | h | h | h | h | h | h | h | h | h
  · exact hA h
  · exact h1 h
  · exact hIl h
  · exact h2 h
  · exact hLr h
  · exact h3 h
  · exact hTp h
  · exact h4 h
  · exact hIi h
  · exact h5 h
  · exact hItp h
  · exact h6 h
  · exact hIlra h
  · exact h7 h
  · exact hIth h
  · exact h8 h
  · exact hOff h
  · exact hR h

/-- Without downmix, both filter strings start with the character `l`
of `loudnorm`. -/
theorem construct_head_false {c : CliConfig} (m : Option Loudness)
    (hd : c.down_mix = false) :
    (FilterSettings.construct c m).data.head? = some 'l' := by
  cases m with
  | some l =>
    rw [construct_some_data, hd]
    simp [List.head?_append, empty_data,
      (rfl : ("loudnorm=linear=true:I=" : String).data.head? = some 'l')]
  | none =>
    rw [construct_none_data, hd]
    simp [List.head?_append, empty_data,
      (rfl : ("loudnorm=I=" : String).data.head? = some 'l')]

/-- With downmix, both filter strings start with the downmix chain. -/
theorem construct_true_chain {c : CliConfig} (m : Option Loudness)
    (hd : c.down_mix = true) :
    downmix_chain.data <+: (FilterSettings.construct c m).data := by
  cases m with
  | some l =>
    rw [construct_some_data, hd]
    exact List.prefix_append _ _
  | none =>
    rw [construct_none_data, hd]
    exact List.prefix_append _ _

/-! ### Claim C7 -/

/-- Claim C7: for every configuration and every optional measurement,
the built filter string begins with the fixed
`aformat=...stereo,` downmix chain exactly when the downmix flag is
true, and begins directly with `loudnorm=` exactly when the downmix
flag is false. -/
theorem C7_downmix_governs_start : ∀ (c : CliConfig) (m : Option Loudness),
    (startsS (FilterSettings.construct c m) downmix_chain ↔ c.down_mix = true) ∧
    (startsS (FilterSettings.construct c m) "loudnorm=" ↔ c.down_mix = false) := by
  intro c m
  constructor
  · constructor
    · intro h
      cases hd : c.down_mix
      · exfalso
        have hh := head_eq_of_isPre h (by decide)
        rw [construct_head_false m hd] at hh
        exact absurd hh (by decide)
      · rfl
    · intro hd
      exact construct_true_chain m hd
  · constructor
    · intro h
      cases hd : c.down_mix
      · rfl
      · exfalso
        have hh := head_eq_of_isPre h (by decide)
        have hh2 := head_eq_of_isPre (construct_true_chain m hd) (by decide)
        rw [hh2] at hh
        exact absurd hh (by decide)
    · intro hd
      cases m with
      | some l =>
        show ("loudnorm=" : String).data <+: _
        rw [construct_some_data, hd]
        simp only [empty_data]
        rw [show ((if false = true then downmix_chain else "") : String).data = [] from rfl]
        rw [List.nil_append]
        exact List.IsPrefix.trans (by decide) (List.prefix_append _ _)
      | none =>
        show ("loudnorm=" : String).data <+: _
        rw [construct_none_data, hd]
        rw [show ((if false = true then downmix_chain else "") : String).data = [] from rfl]
        rw [List.nil_append]
        exact List.IsPrefix.trans (by decide) (List.prefix_append _ _)

/-! ### Claim C2 -/

/-- Claim C2 (counterexample): the claim says the measurement-mode
string uses the key `TP=`; the code's template uses lowercase `tp=`,
so at the concrete default-style configuration the built string
differs from the spec's formula.  Moreover the claim's universal
"does not contain `linear=true`" also fails on a configuration whose
(unvalidated) integrated-loudness string is itself `linear=true`. -/
theorem C2_counterexample :
    FilterSettings.construct ⟨"in.wav", "-23.0", "7.0", "-2.0", false, false⟩ none ≠
      spec_measurement_filter ⟨"in.wav", "-23.0", "7.0", "-2.0", false, false⟩ ∧
    containsS (FilterSettings.construct ⟨"f", "linear=true", "7.0", "-2.0", false, false⟩ none)
      "linear=true" := by
  exact ⟨by decide, by decide⟩

set_option maxRecDepth 8000 in
/-- Claim C2 (amended): the measurement-mode string equals the downmix
chain (empty when the flag is false) followed by
`loudnorm=I=<I>:LRA=<LRA>:tp=<TP>:print_format=json` — with the
lowercase key `tp=`, not the spec's `TP=`; it contains
`print_format=json`; and, provided the three target strings are
numeric text (the CLI performs no validation, so this is a genuine
proviso), it does not contain `linear=true`. -/
theorem C2_amended : ∀ c : CliConfig,
    NumStr c.integrated_loudness → NumStr c.loudness_range → NumStr c.true_peak →
    FilterSettings.construct c none =
      (if c.down_mix then downmix_chain else "") ++ "loudnorm=I=" ++
        c.integrated_loudness ++ ":LRA=" ++ c.loudness_range ++ ":tp=" ++
        c.true_peak ++ ":print_format=json" ∧
    containsS (FilterSettings.construct c none) "print_format=json" ∧
    ¬ containsS (FilterSettings.construct c none) "linear=true" := by
  intro c hIl hLr hTp
  refine ⟨rfl, ?_, ?_⟩
  · refine List.IsInfix.trans (by decide :
      ("print_format=json" : String).data <:+: (":print_format=json" : String).data) ?_
    refine infix_of_split_end
      (((if c.down_mix then downmix_chain else "") : String).data ++
       (("loudnorm=I=" : String).data ++ (c.integrated_loudness.data ++
       ((":LRA=" : String).data ++ (c.loudness_range.data ++
       ((":tp=" : String).data ++ c.true_peak.data)))))) ?_
    rw [construct_none_data]
    simp [List.append_assoc]
  · intro hin
    have hbody : ∀ s2 : List Char, s2 <:+:
        (("loudnorm=I=" : String).data ++ (c.integrated_loudness.data ++
        ((":LRA=" : String).data ++ (c.loudness_range.data ++
        ((":tp=" : String).data ++ (c.true_peak.data ++
        (":print_format=json" : String).data)))))) → 'e' ∈ s2 → False := by
      intro s2 hs2 he
      have hmem := hs2.sublist.subset he
      simp only [List.mem_append] at hmem
      rcases hmem with h | h | h | h | h | h | h
      · exact absurd h (by decide)
      · exact numStr_not_mem hIl (by decide) h
      · exact absurd h (by decide)
      · exact numStr_not_mem hLr (by decide) h
      · exact absurd h (by decide)
      · exact numStr_not_mem hTp (by decide) h
      · exact absurd h (by decide)
    have hin2 : ("linear=true" : String).data <:+:
        ((if c.down_mix then downmix_chain else "") : String).data ++
        (("loudnorm=I=" : String).data ++ (c.integrated_loudness.data ++
        ((":LRA=" : String).data ++ (c.loudness_range.data ++
        ((":tp=" : String).data ++ (c.true_peak.data ++
        (":print_format=json" : String).data)))))) := by
      rw [← construct_none_data]
      exact hin
    rcases infix_append_split hin2 with hA | ⟨s1, s2, hs, hne, hsinf⟩
    · cases hd : c.down_mix
      · rw [hd] at hA
        exact absurd hA (by decide)
      · rw [hd] at hA
        exact absurd hA (by decide)
    · have he2 : 'e' ∈ s2 :=
        getLast_mem_of_suffix ⟨s1, hs.symm⟩ hne (by decide)
      exact hbody s2 hsinf he2

/-- Claim C2 (witness): the amended theorem applied at a concrete
configuration with the downmix flag set and numeric targets. -/
theorem C2_amended_witness :
    FilterSettings.construct ⟨"f", "-24.0", "7.0", "-2.0", true, false⟩ none =
      (if true then downmix_chain else "") ++ "loudnorm=I=" ++ "-24.0" ++ ":LRA=" ++
        "7.0" ++ ":tp=" ++ "-2.0" ++ ":print_format=json" ∧
    containsS (FilterSettings.construct ⟨"f", "-24.0", "7.0", "-2.0", true, false⟩ none)
      "print_format=json" ∧
    ¬ containsS (FilterSettings.construct ⟨"f", "-24.0", "7.0", "-2.0", true, false⟩ none)
      "linear=true" :=
  C2_amended ⟨"f", "-24.0", "7.0", "-2.0", true, false⟩ (by decide) (by decide) (by decide)

/-! ### Claim C8 -/

set_option maxRecDepth 8000 in
/-- Claim C8 (counterexample): the claim says that with the resample
flag false the resample suffix does not appear anywhere in the output.
The fields are unvalidated strings, so a measurement whose
target-offset string itself carries the resample-chain text puts the
chain into the output of a resample=false configuration. -/
theorem C8_counterexample :
    containsS (FilterSettings.construct ⟨"f", "-23.0", "7.0", "-2.0", false, false⟩
        (some ⟨"-23.5", "-1.0", "5.0", "-34.0",
          "0.5,aresample=osr=48000,aresample=resampler=soxr:precision=28"⟩))
      resample_chain := by
  show resample_chain.data <:+: _
  refine infix_of_split_end
    (("loudnorm=linear=true:I=-23.0:LRA=7.0:TP=-2.0:measured_I=-23.5:measured_TP=-1.0:measured_LRA=5.0:measured_thresh=-34.0:offset=0.5" : String).data) ?_
  decide

/-- Claim C8 (amended): provided the three target strings and the five
measurement fields are numeric text (the code performs no validation,
so this proviso is genuine), the correction-mode output ends with the
fixed resample chain exactly when the resample flag is true; with the
flag false the chain appears nowhere in the correction-mode output;
and it never appears in measurement-mode output. -/
theorem C8_amended : ∀ (c : CliConfig) (m : Loudness),
    NumStr c.integrated_loudness → NumStr c.loudness_range → NumStr c.true_peak →
    NumStr m.input_i → NumStr m.input_tp → NumStr m.input_lra →
    NumStr m.input_thresh → NumStr m.target_offset →
    (endsS (FilterSettings.construct c (some m)) resample_chain ↔ c.resample = true) ∧
    (c.resample = false →
      ¬ containsS (FilterSettings.construct c (some m)) resample_chain) ∧
    ¬ containsS (FilterSettings.construct c none) resample_chain := by
  intro c m hIl hLr hTp hIi hItp hIlra hIth hOff
  have hx_some : c.resample = false →
      'x' ∉ (FilterSettings.construct c (some m)).data := by
    intro hr
    refine not_mem_construct_some
      (fun h => absurd (mem_ite_chain h) (by decide)) (by decide)
      (numStr_not_mem hIl (by decide)) (by decide)
      (numStr_not_mem hLr (by decide)) (by decide)
      (numStr_not_mem hTp (by decide)) (by decide)
      (numStr_not_mem hIi (by decide)) (by decide)
      (numStr_not_mem hItp (by decide)) (by decide)
      (numStr_not_mem hIlra (by decide)) (by decide)
      (numStr_not_mem hIth (by decide)) (by decide)
      (numStr_not_mem hOff (by decide)) ?_
    rw [hr]
    simp [empty_data]
  have hnc_some : c.resample = false →
      ¬ containsS (FilterSettings.construct c (some m)) resample_chain := by
    intro hr hin
    exact hx_some hr (hin.sublist.subset (by decide))
  refine ⟨⟨?_, ?_⟩, hnc_some, ?_⟩
  · intro h
    cases hr : c.resample
    · exact absurd ((List.IsSuffix.isInfix h).sublist.subset (by decide)) (hx_some hr)
    · rfl
  · intro hr
    show resample_chain.data <:+ (FilterSettings.construct c (some m)).data
    rw [construct_some_data, hr]
    exact suffix_extend _ (suffix_extend _ (suffix_extend _ (suffix_extend _
      (suffix_extend _ (suffix_extend _ (suffix_extend _ (suffix_extend _
      (suffix_extend _ (suffix_extend _ (suffix_extend _ (suffix_extend _
      (suffix_extend _ (suffix_extend _ (suffix_extend _ (suffix_extend _
      (List.suffix_append _ _))))))))))))))))
  · intro hin
    have hx : 'x' ∈ (FilterSettings.construct c none).data :=
      hin.sublist.subset (by decide)
    exact not_mem_construct_none (by decide) (by decide)
      (numStr_not_mem hIl (by decide)) (by decide)
      (numStr_not_mem hLr (by decide)) (by decide)
      (numStr_not_mem hTp (by decide)) (by decide) hx

/-- Claim C8 (witness): the amended theorem applied at a concrete
configuration with the resample flag set and numeric fields. -/
theorem C8_amended_witness :
    (endsS (FilterSettings.construct ⟨"f", "-23.0", "7.0", "-2.0", false, true⟩
        (some ⟨"-23.5", "-1.0", "5.0", "-34.0", "0.5"⟩)) resample_chain ↔
      (⟨"f", "-23.0", "7.0", "-2.0", false, true⟩ : CliConfig).resample = true) ∧
    ((⟨"f", "-23.0", "7.0", "-2.0", false, true⟩ : CliConfig).resample = false →
      ¬ containsS (FilterSettings.construct ⟨"f", "-23.0", "7.0", "-2.0", false, true⟩
        (some ⟨"-23.5", "-1.0", "5.0", "-34.0", "0.5"⟩)) resample_chain) ∧
    ¬ containsS (FilterSettings.construct ⟨"f", "-23.0", "7.0", "-2.0", false, true⟩ none)
      resample_chain :=
  C8_amended ⟨"f", "-23.0", "7.0", "-2.0", false, true⟩ ⟨"-23.5", "-1.0", "5.0", "-34.0", "0.5"⟩
    (by decide) (by decide) (by decide) (by decide) (by decide)
    (by decide) (by decide) (by decide)

/-! ### Claim C9 -/

set_option maxRecDepth 8000 in
/-- Claim C9 (counterexample): the claim says the correction-mode
string never contains `print_format=json`.  The measurement fields are
unvalidated strings, so a measurement whose integrated-loudness field
is itself the text `print_format=json` puts that text into the
correction-mode output verbatim. -/
theorem C9_counterexample :
    containsS (FilterSettings.construct ⟨"f", "-23.0", "7.0", "-2.0", false, false⟩
        (some ⟨"print_format=json", "-1.0", "5.0", "-34.0", "0.5"⟩))
      "print_format=json" := by
  show ("print_format=json" : String).data <:+: _
  refine infix_of_split
    (("loudnorm=linear=true:I=-23.0:LRA=7.0:TP=-2.0:measured_I=" : String).data)
    ((":measured_TP=-1.0:measured_LRA=5.0:measured_thresh=-34.0:offset=0.5" : String).data)
    ?_
  decide

set_option maxRecDepth 8000 in
/-- Claim C9 (amended): for every configuration and measurement, the
correction-mode string contains `linear=true` and embeds each of the
five measurement fields character-for-character, delimited by the
fixed keys (`measured_I`, `measured_TP`, `measured_LRA`,
`measured_thresh`, `offset`), the last one extending to the end of the
string up to the optional resample chain; and provided the target and
measurement field strings are numeric text (the code performs no
validation, so this proviso is genuine) it never contains
`print_format=json`. -/
theorem C9_amended : ∀ (c : CliConfig) (m : Loudness),
    NumStr c.integrated_loudness → NumStr c.loudness_range → NumStr c.true_peak →
    NumStr m.input_i → NumStr m.input_tp → NumStr m.input_lra →
    NumStr m.input_thresh → NumStr m.target_offset →
    containsS (FilterSettings.construct c (some m)) "linear=true" ∧
    ¬ containsS (FilterSettings.construct c (some m)) "print_format=json" ∧
    containsS (FilterSettings.construct c (some m))
      (":measured_I=" ++ m.input_i ++ ":measured_TP=") ∧
    containsS (FilterSettings.construct c (some m))
      (":measured_TP=" ++ m.input_tp ++ ":measured_LRA=") ∧
    containsS (FilterSettings.construct c (some m))
      (":measured_LRA=" ++ m.input_lra ++ ":measured_thresh=") ∧
    containsS (FilterSettings.construct c (some m))
      (":measured_thresh=" ++ m.input_thresh ++ ":offset=") ∧
    endsS (FilterSettings.construct c (some m))
      (":offset=" ++ m.target_offset ++ (if c.resample then resample_chain else "")) := by
  intro c m hIl hLr hTp hIi hItp hIlra hIth hOff
  refine ⟨?_, ?_, ?_, ?_, ?_, ?_, ?_⟩
  · show ("linear=true" : String).data <:+: _
    refine List.IsInfix.trans (by decide :
      ("linear=true" : String).data <:+: ("loudnorm=linear=true:I=" : String).data) ?_
    refine infix_of_split
      (((if c.down_mix then downmix_chain else "") : String).data)
      (c.integrated_loudness.data ++
       ((":LRA=" : String).data ++ (c.loudness_range.data ++
       ((":TP=" : String).data ++ (c.true_peak.data ++
       ((":measured_I=" : String).data ++ (m.input_i.data ++
       ((":measured_TP=" : String).data ++ (m.input_tp.data ++
       ((":measured_LRA=" : String).data ++ (m.input_lra.data ++
       ((":measured_thresh=" : String).data ++ (m.input_thresh.data ++
       ((":offset=" : String).data ++ (m.target_offset.data ++
       ((if c.resample then resample_chain else "") : String).data)))))))))))))))
      ?_
    rw [construct_some_data]
  · intro hin
    have hj : 'j' ∈ (FilterSettings.construct c (some m)).data :=
      hin.sublist.subset (by decide)
    exact not_mem_construct_some
      (fun h => absurd (mem_ite_chain h) (by decide)) (by decide)
      (numStr_not_mem hIl (by decide)) (by decide)
      (numStr_not_mem hLr (by decide)) (by decide)
      (numStr_not_mem hTp (by decide)) (by decide)
      (numStr_not_mem hIi (by decide)) (by decide)
      (numStr_not_mem hItp (by decide)) (by decide)
      (numStr_not_mem hIlra (by decide)) (by decide)
      (numStr_not_mem hIth (by decide)) (by decide)
      (numStr_not_mem hOff (by decide))
      (fun h => absurd (mem_ite_res h) (by decide)) hj
  · show ((":measured_I=" ++ m.input_i ++ ":measured_TP=") : String).data <:+: _
    simp only [String.data_append]
    refine infix_of_split
      (((if c.down_mix then downmix_chain else "") : String).data ++
       (("loudnorm=linear=true:I=" : String).data ++ (c.integrated_loudness.data ++
       ((":LRA=" : String).data ++ (c.loudness_range.data ++
       ((":TP=" : String).data ++ c.true_peak.data))))))
      (m.input_tp.data ++ ((":measured_LRA=" : String).data ++ (m.input_lra.data ++
       ((":measured_thresh=" : String).data ++ (m.input_thresh.data ++
       ((":offset=" : String).data ++ (m.target_offset.data ++
       ((if c.resample then resample_chain else "") : String).data)))))))
      ?_
    rw [construct_some_data]
    simp [List.append_assoc]
  · show ((":measured_TP=" ++ m.input_tp ++ ":measured_LRA=") : String).data <:+: _
    simp only [String.data_append]
    refine infix_of_split
      (((if c.down_mix then downmix_chain else "") : String).data ++
       (("loudnorm=linear=true:I=" : String).data ++ (c.integrated_loudness.data ++
       ((":LRA=" : String).data ++ (c.loudness_range.data ++
       ((":TP=" : String).data ++ (c.true_peak.data ++
       ((":measured_I=" : String).data ++ m.input_i.data))))))))
      (m.input_lra.data ++ ((":measured_thresh=" : String).data ++ (m.input_thresh.data ++
       ((":offset=" : String).data ++ (m.target_offset.data ++
       ((if c.resample then resample_chain else "") : String).data)))))
      ?_
    rw [construct_some_data]
    simp [List.append_assoc]
  · show ((":measured_LRA=" ++ m.input_lra ++ ":measured_thresh=") : String).data <:+: _
    simp only [String.data_append]
    refine infix_of_split
      (((if c.down_mix then downmix_chain else "") : String).data ++
       (("loudnorm=linear=true:I=" : String).data ++ (c.integrated_loudness.data ++
       ((":LRA=" : String).data ++ (c.loudness_range.data ++
       ((":TP=" : String).data ++ (c.true_peak.data ++
       ((":measured_I=" : String).data ++ (m.input_i.data ++
       ((":measured_TP=" : String).data ++ m.input_tp.data))))))))))
      (m.input_thresh.data ++ ((":offset=" : String).data ++ (m.target_offset.data ++
       ((if c.resample then resample_chain else "") : String).data)))
      ?_
    rw [construct_some_data]
    simp [List.append_assoc]
  · show ((":measured_thresh=" ++ m.input_thresh ++ ":offset=") : String).data <:+: _
    simp only [String.data_append]
    refine infix_of_split
      (((if c.down_mix then downmix_chain else "") : String).data ++
       (("loudnorm=linear=true:I=" : String).data ++ (c.integrated_loudness.data ++
       ((":LRA=" : String).data ++ (c.loudness_range.data ++
       ((":TP=" : String).data ++ (c.true_peak.data ++
       ((":measured_I=" : String).data ++ (m.input_i.data ++
       ((":measured_TP=" : String).data ++ (m.input_tp.data ++
       ((":measured_LRA=" : String).data ++ m.input_lra.data))))))))))))
      (m.target_offset.data ++
       ((if c.resample then resample_chain else "") : String).data)
      ?_
    rw [construct_some_data]
    simp [List.append_assoc]
  · show ((":offset=" ++ m.target_offset ++
        (if c.resample then resample_chain else "")) : String).data <:+ _
    simp only [String.data_append]
    refine suffix_of_split
      (((if c.down_mix then downmix_chain else "") : String).data ++
       (("loudnorm=linear=true:I=" : String).data ++ (c.integrated_loudness.data ++
       ((":LRA=" : String).data ++ (c.loudness_range.data ++
       ((":TP=" : String).data ++ (c.true_peak.data ++
       ((":measured_I=" : String).data ++ (m.input_i.data ++
       ((":measured_TP=" : String).data ++ (m.input_tp.data ++
       ((":measured_LRA=" : String).data ++ (m.input_lra.data ++
       ((":measured_thresh=" : String).data ++ m.input_thresh.data))))))))))))))
      ?_
    rw [construct_some_data]
    simp [List.append_assoc]

/-- Claim C9 (witness): the amended theorem applied at the concrete
default-style configuration and the spec's example measurement. -/
theorem C9_amended_witness :
    containsS (FilterSettings.construct ⟨"f", "-23.0", "7.0", "-2.0", false, false⟩
      (some ⟨"-23.5", "-1.0", "5.0", "-34.0", "0.5"⟩)) "linear=true" ∧
    ¬ containsS (FilterSettings.construct ⟨"f", "-23.0", "7.0", "-2.0", false, false⟩
      (some ⟨"-23.5", "-1.0", "5.0", "-34.0", "0.5"⟩)) "print_format=json" ∧
    containsS (FilterSettings.construct ⟨"f", "-23.0", "7.0", "-2.0", false, false⟩
      (some ⟨"-23.5", "-1.0", "5.0", "-34.0", "0.5"⟩))
      (":measured_I=" ++ "-23.5" ++ ":measured_TP=") ∧
    containsS (FilterSettings.construct ⟨"f", "-23.0", "7.0", "-2.0", false, false⟩
      (some ⟨"-23.5", "-1.0", "5.0", "-34.0", "0.5"⟩))
      (":measured_TP=" ++ "-1.0" ++ ":measured_LRA=") ∧
    containsS (FilterSettings.construct ⟨"f", "-23.0", "7.0", "-2.0", false, false⟩
      (some ⟨"-23.5", "-1.0", "5.0", "-34.0", "0.5"⟩))
      (":measured_LRA=" ++ "5.0" ++ ":measured_thresh=") ∧
    containsS (FilterSettings.construct ⟨"f", "-23.0", "7.0", "-2.0", false, false⟩
      (some ⟨"-23.5", "-1.0", "5.0", "-34.0", "0.5"⟩))
      (":measured_thresh=" ++ "-34.0" ++ ":offset=") ∧
    endsS (FilterSettings.construct ⟨"f", "-23.0", "7.0", "-2.0", false, false⟩
      (some ⟨"-23.5", "-1.0", "5.0", "-34.0", "0.5"⟩))
      (":offset=" ++ "0.5" ++
        (if (⟨"f", "-23.0", "7.0", "-2.0", false, false⟩ : CliConfig).resample
         then resample_chain else "")) :=
  C9_amended ⟨"f", "-23.0", "7.0", "-2.0", false, false⟩ ⟨"-23.5", "-1.0", "5.0", "-34.0", "0.5"⟩
    (by decide) (by decide) (by decide) (by decide) (by decide)
    (by decide) (by decide) (by decide)
